import Mathlib

/-!
Shallow embedding of `src/main.py` (DP-EO): a FastAPI backend over a Neo4j
graph store with two graph-browsing endpoints and a three-step LLM
question-answering pipeline.

The graph store is modelled as the list of rows its fixed queries project
(`source`, `target`, `relation`); the external text-generation API and the
semantics of model-generated Cypher are modelled as oracles supplied to the
endpoints, since both are external collaborators.
-/

deriving instance DecidableEq for Except

namespace DPEO

/-- One row of the three-column result shape
`RETURN n.name AS source, m.name AS target, type(r) AS relation`.
The value type is a parameter: the builder code never inspects values. -/
structure Row (α : Type) where
  source : α
  target : α
  relation : α
deriving DecidableEq, Repr

/-- A node object `{"name": name}` as produced by the endpoints. -/
structure NodeObj (α : Type) where
  name : α
deriving DecidableEq, Repr

/-- The `{nodes, links}` body returned by the two graph endpoints. -/
structure Projection (α : Type) where
  nodes : List (NodeObj α)
  links : List (Row α)
deriving DecidableEq, Repr

/-- `node_names.add name` on the insertion-ordered model of the Python set:
append the name unless it is already present. -/
def insertName {α : Type} [DecidableEq α] (acc : List α) (a : α) : List α :=
  if a ∈ acc then acc else acc ++ [a]

/-- One iteration of the `for link in links` loop of `get_full_graph` /
`search_subgraph`: add `link["source"]` then `link["target"]`. -/
def addRowNames {α : Type} [DecidableEq α] (acc : List α) (r : Row α) : List α :=
  insertName (insertName acc r.source) r.target

/-- The distinct node names collected from a batch of links
(lines 141-144 / 164-167 of `src/main.py`). -/
def nodeNames {α : Type} [DecidableEq α] (links : List (Row α)) : List α :=
  links.foldl addRowNames []

/-- The graph projection builder shared by `get_full_graph` and
`search_subgraph`: derived node list plus the original links. -/
def buildProjection {α : Type} [DecidableEq α] (links : List (Row α)) : Projection α :=
  { nodes := (nodeNames links).map NodeObj.mk, links := links }

/-- The backquote character, written by code point to keep source text clean. -/
def backquote : Char := Char.ofNat 96

/-- Drop leading whitespace characters from a character list. -/
def dropLeadingWs : List Char → List Char
  | [] => []
  | c :: cs => if c.isWhitespace then dropLeadingWs cs else c :: cs

/-- Python `str.strip()`: remove leading and trailing whitespace. -/
def pyStrip (s : String) : String :=
  ⟨(dropLeadingWs ((dropLeadingWs s.data).reverse)).reverse⟩

/-- `str.replace(pat, '')` for the fixed three-backquote pattern, on the
character list: left-to-right scan removing each non-overlapping occurrence. -/
def removeFencesAux : List Char → List Char
  | [] => []
  | [c] => [c]
  | [c1, c2] => [c1, c2]
  | c1 :: c2 :: c3 :: rest =>
    if c1 == backquote && c2 == backquote && c3 == backquote then
      removeFencesAux rest
    else
      c1 :: removeFencesAux (c2 :: c3 :: rest)

/-- `s.replace('```', '')` (line 72 of `src/main.py`). -/
def pyReplaceFences (s : String) : String :=
  ⟨removeFencesAux s.data⟩

/-- Character-list test: does the list start with the pattern? -/
def charsHasPref : List Char → List Char → Bool
  | [], _ => true
  | _ :: _, [] => false
  | p :: ps, c :: cs => p == c && charsHasPref ps cs

/-- Character-list substring containment. -/
def charsContains (pat : List Char) : List Char → Bool
  | [] => charsHasPref pat []
  | c :: cs => charsHasPref pat (c :: cs) || charsContains pat cs

/-- Cypher `CONTAINS`: substring containment on strings. -/
def strContains (s pat : String) : Bool :=
  charsContains pat.data s.data

/-- Cypher `toLower`: lowercase every character. -/
def strToLower (s : String) : String :=
  ⟨s.data.map Char.toLower⟩

/-- The `WHERE` clause of the search query:
`toLower(n.name) CONTAINS toLower($q) OR toLower(m.name) CONTAINS toLower($q)`. -/
def matchesKeyword (q : String) (r : Row String) : Bool :=
  strContains (strToLower r.source) (strToLower q) ||
    strContains (strToLower r.target) (strToLower q)

/-- A value bound to a named Cypher parameter. -/
inductive ParamVal where
  | int (i : Int)
  | str (s : String)
deriving DecidableEq, Repr

/-- Lookup of a named parameter in the bound-parameter mapping. -/
def findParam (key : String) : List (String × ParamVal) → Option ParamVal
  | [] => none
  | (k, v) :: rest => if k == key then some v else findParam key rest

/-- The queries the backend sends to the store: the two fixed query strings of
`get_full_graph` and `search_subgraph`, and an opaque model-generated string. -/
inductive CypherQuery where
  | fullGraph
  | search
  | generated (text : String)
deriving DecidableEq, Repr

/-- The error the store raises for `LIMIT $limit` with a negative argument. -/
def negativeLimitError : String :=
  "Invalid input. LIMIT: Must be a non-negative integer."

/-- The graph store: the rows its edge pattern projects, in store order, plus
the (external, unspecified) semantics of model-generated query strings. -/
structure Store where
  edges : List (Row String)
  genSem : String → Except String (List (Row String))

/-- `run_cypher` (lines 29-33 of `src/main.py`): execute a query with bound
parameters against the store and return the rows as a list of mappings.
The two fixed queries are given their Cypher semantics over the store's
edge rows; generated queries are delegated to the store oracle. -/
def run_cypher (st : Store) (query : CypherQuery)
    (params : List (String × ParamVal)) : Except String (List (Row String)) :=
  match query with
  | .fullGraph =>
    match findParam "limit" params with
    | some (.int l) =>
      if l < 0 then .error negativeLimitError
      else .ok (st.edges.take l.toNat)
    | _ => .error "Expected parameter: limit"
  | .search =>
    match findParam "q" params with
    | some (.str s) => .ok ((st.edges.filter (matchesKeyword s)).take 100)
    | _ => .error "Expected parameter: q"
  | .generated text => st.genSem text

/-- One `{role, content}` message of an external-model response. -/
structure ChatMessage where
  role : String
  content : String
deriving DecidableEq, Repr

/-- One element of the `choices` array of an external-model response. -/
structure Choice where
  message : ChatMessage
deriving DecidableEq, Repr

/-- The response shape consumed by both clients: `choices[0].message.content`. -/
structure ChatResponse where
  choices : List Choice
deriving DecidableEq, Repr

/-- The external text-generation API, as the two calls the backend makes:
the query-generation POST is a function of the question, the
answer-synthesis POST a function of the query result rows and the question.
`Except.error` models a failed HTTP call. -/
structure LlmOracle where
  genResp : String → Except String ChatResponse
  ansResp : List (Row String) → String → Except String ChatResponse

/-- `choices[0]["message"]["content"]`: index 0 of the choices array raises
IndexError when the array is empty. -/
def extractContent (r : ChatResponse) : Except String String :=
  match r.choices with
  | [] => .error "list index out of range"
  | c :: _ => .ok c.message.content

/-- `generate_cypher_query` (lines 38-72 of `src/main.py`): POST the
question prompt, take `choices[0].message.content`, then
`.strip().replace('```', '')`. -/
def generate_cypher_query (o : LlmOracle) (question : String) : Except String String :=
  match o.genResp question with
  | .error e => .error e
  | .ok r =>
    match extractContent r with
    | .error e => .error e
    | .ok content => .ok (pyReplaceFences (pyStrip content))

/-- `get_answer_from_kg` (lines 74-99 of `src/main.py`): POST the
answer prompt with the rows and question, take
`choices[0].message.content.strip()`. -/
def get_answer_from_kg (o : LlmOracle) (records : List (Row String))
    (question : String) : Except String String :=
  match o.ansResp records question with
  | .error e => .error e
  | .ok r =>
    match extractContent r with
    | .error e => .error e
    | .ok content => .ok (pyStrip content)

/-- A `JSONResponse` of the question-answering endpoint: the JSON body's
`answer` field and the HTTP status code. -/
structure AskResponse where
  answer : String
  status : Nat
deriving DecidableEq, Repr

/-- `ask_question` (lines 173-187 of `src/main.py`): generate the query,
execute it with no parameters, synthesize the answer; a single catch-all
turns any step's exception `e` into `{"answer": "Error: " + str(e)}` with
status 500. -/
def ask_question (st : Store) (o : LlmOracle) (q : String) : AskResponse :=
  match generate_cypher_query o q with
  | .error e => { answer := "Error: " ++ e, status := 500 }
  | .ok cypher_query =>
    match run_cypher st (.generated cypher_query) [] with
    | .error e => { answer := "Error: " ++ e, status := 500 }
    | .ok kg_records =>
      match get_answer_from_kg o kg_records q with
      | .error e => { answer := "Error: " ++ e, status := 500 }
      | .ok answer => { answer := answer, status := 200 }

/-- `get_full_graph` (lines 127-147 of `src/main.py`): run the full-graph
query with `limit` bound verbatim as `$limit` (no range validation, no local
exception handling), then build the projection from the returned links. -/
def get_full_graph (st : Store) (limit : Int) : Except String (Projection String) :=
  (run_cypher st .fullGraph [("limit", .int limit)]).map buildProjection

/-- An HTTP-level response of the search endpoint. -/
inductive HttpResponse where
  | ok (status : Nat) (body : Projection String)
  | unprocessable
  | serverError (msg : String)
deriving DecidableEq, Repr

/-- The HTTP status of a search-endpoint response. -/
def HttpResponse.status : HttpResponse → Nat
  | .ok s _ => s
  | .unprocessable => 422
  | .serverError _ => 500

/-- `search_subgraph` behind its FastAPI parameter declaration
`q: str = Query(..., min_length=1)` (lines 150-170 of `src/main.py`):
the HTTP layer rejects a missing or shorter-than-1 `q` with 422 before the
handler runs; otherwise the handler executes the search query with `q` bound
and builds the projection. -/
def search_endpoint (st : Store) (q : Option String) : HttpResponse :=
  match q with
  | none => .unprocessable
  | some s =>
    if s.length < 1 then .unprocessable
    else
      match run_cypher st .search [("q", .str s)] with
      | .error e => .serverError e
      | .ok links => .ok 200 (buildProjection links)

/-- A concrete edge row used to exercise the endpoints. -/
def demoRow : Row String :=
  { source := "Ag", target := "reactivity", relation := "CATALYZES" }

/-- A concrete store with a single edge whose generated-query semantics
returns that edge. -/
def demoStore : Store :=
  { edges := [demoRow]
    genSem := fun _ => .ok [demoRow] }

/-- A store whose generated-query semantics returns an empty result set. -/
def emptyResultStore : Store :=
  { edges := []
    genSem := fun _ => .ok [] }

/-- A concrete external-model oracle for which both calls succeed. -/
def demoOracle : LlmOracle :=
  { genResp := fun _ => .ok { choices := [{ message :=
      { role := "assistant", content := "MATCH (n) RETURN n" } }] }
    ansResp := fun _ _ => .ok { choices := [{ message :=
      { role := "assistant", content := "Silver catalyzes it." } }] } }

/-- A concrete external-model oracle for which every call fails. -/
def failingOracle : LlmOracle :=
  { genResp := fun _ => .error "connection refused"
    ansResp := fun _ _ => .error "connection refused" }

/-- A model reply wrapped in a Markdown code fence, with padding whitespace. -/
def fenceContent : String := "  ```MATCH (n) RETURN n```  "

/-- A concrete external-model oracle answering with `fenceContent`. -/
def fenceOracle : LlmOracle :=
  { genResp := fun _ => .ok { choices := [{ message :=
      { role := "assistant", content := fenceContent } }] }
    ansResp := fun _ _ => .error "unused" }

theorem mem_insertName {α : Type} [DecidableEq α] (acc : List α) (x a : α) :
    a ∈ insertName acc x ↔ a ∈ acc ∨ a = x := by
  by_cases hx : x ∈ acc
  · simp only [insertName, if_pos hx]
    exact ⟨Or.inl, fun h => h.elim id (fun h2 => h2 ▸ hx)⟩
  · simp [insertName, if_neg hx]

theorem nodup_insertName {α : Type} [DecidableEq α] (acc : List α) (x : α)
    (h : acc.Nodup) : (insertName acc x).Nodup := by
  by_cases hx : x ∈ acc
  · simpa only [insertName, if_pos hx] using h
  · simp only [insertName, if_neg hx]
    exact List.Nodup.append h (List.nodup_singleton x)
      (fun a ha hb => hx ((List.mem_singleton.mp hb) ▸ ha))

theorem mem_foldl_addRowNames {α : Type} [DecidableEq α] (links : List (Row α))
    (acc : List α) (a : α) :
    a ∈ links.foldl addRowNames acc ↔
      a ∈ acc ∨ ∃ r ∈ links, r.source = a ∨ r.target = a := by
  induction links generalizing acc with
  | nil => simp
  | cons r rs ih =>
    rw [List.foldl_cons, ih]
    simp only [addRowNames, mem_insertName, List.mem_cons]
    constructor
    · rintro (((h | h) | h) | ⟨r2, hr2, h⟩)
      · exact Or.inl h
      · exact Or.inr ⟨r, Or.inl rfl, Or.inl h.symm⟩
      · exact Or.inr ⟨r, Or.inl rfl, Or.inr h.symm⟩
      · exact Or.inr ⟨r2, Or.inr hr2, h⟩
    · rintro (h | ⟨r2, hr2 | hr2, h⟩)
      · exact Or.inl (Or.inl (Or.inl h))
      · subst hr2
        rcases h with h | h
        · exact Or.inl (Or.inl (Or.inr h.symm))
        · exact Or.inl (Or.inr h.symm)
      · exact Or.inr ⟨r2, hr2, h⟩

theorem nodup_foldl_addRowNames {α : Type} [DecidableEq α] (links : List (Row α))
    (acc : List α) (h : acc.Nodup) : (links.foldl addRowNames acc).Nodup := by
  induction links generalizing acc with
  | nil => simpa
  | cons r rs ih =>
    rw [List.foldl_cons]
    exact ih _ (nodup_insertName _ _ (nodup_insertName _ _ h))

theorem mem_nodes_buildProjection {α : Type} [DecidableEq α] (links : List (Row α))
    (a : α) :
    NodeObj.mk a ∈ (buildProjection links).nodes ↔
      ∃ r ∈ links, r.source = a ∨ r.target = a := by
  have h := mem_foldl_addRowNames links [] a
  simp only [List.not_mem_nil, false_or] at h
  simpa [buildProjection, nodeNames, List.mem_map, NodeObj.mk.injEq] using h

theorem nodup_nodes_buildProjection {α : Type} [DecidableEq α]
    (links : List (Row α)) : (buildProjection links).nodes.Nodup :=
  (nodup_foldl_addRowNames links [] List.nodup_nil).map
    (fun _ _ hab => congrArg NodeObj.name hab)

theorem removeFencesAux_no_backquote :
    ∀ l : List Char, (∀ c ∈ l, c ≠ backquote) → removeFencesAux l = l
  | [], _ => rfl
  | [_], _ => rfl
  | [_, _], _ => rfl
  | c1 :: c2 :: c3 :: rest, h => by
    have h1 : (c1 == backquote) = false :=
      beq_eq_false_iff_ne.mpr (h c1 (by simp))
    have ih := removeFencesAux_no_backquote (c2 :: c3 :: rest)
      (fun c hc => h c (List.mem_cons_of_mem _ hc))
    simp [removeFencesAux, h1, ih]

/-- C1: for every question `q`, `ask_question` runs exactly generate-query,
then execute (with no bound parameters), then answer-synthesis on the results
and `q`; when all three succeed it returns `{answer: ans}` with status 200. -/
theorem ask_question_three_step_success (st : Store) (o : LlmOracle)
    (q cq ans : String) (recs : List (Row String))
    (h1 : generate_cypher_query o q = .ok cq)
    (h2 : run_cypher st (.generated cq) [] = .ok recs)
    (h3 : get_answer_from_kg o recs q = .ok ans) :
    ask_question st o q = { answer := ans, status := 200 } := by
  simp [ask_question, h1, h2, h3]

/-- Witness for C1 at a concrete store, oracle and question. -/
theorem ask_question_three_step_success_witness :
    ask_question demoStore demoOracle "how does silver affect reactivity" =
      { answer := "Silver catalyzes it.", status := 200 } :=
  ask_question_three_step_success demoStore demoOracle
    "how does silver affect reactivity" "MATCH (n) RETURN n" "Silver catalyzes it."
    [demoRow] (by decide) rfl (by decide)

/-- C2: whenever any of the three pipeline steps fails with message `e`,
`ask_question` returns status 500 with answer exactly `"Error: " ++ e`,
identically for all three failure kinds. -/
theorem ask_question_catch_all (st : Store) (o : LlmOracle) (q e : String)
    (h : generate_cypher_query o q = .error e
      ∨ (∃ cq, generate_cypher_query o q = .ok cq ∧
          run_cypher st (.generated cq) [] = .error e)
      ∨ (∃ cq recs, generate_cypher_query o q = .ok cq ∧
          run_cypher st (.generated cq) [] = .ok recs ∧
          get_answer_from_kg o recs q = .error e)) :
    ask_question st o q = { answer := "Error: " ++ e, status := 500 } := by
  rcases h with h1 | ⟨cq, h1, h2⟩ | ⟨cq, recs, h1, h2, h3⟩
  · simp [ask_question, h1]
  · simp [ask_question, h1, h2]
  · simp [ask_question, h1, h2, h3]

/-- Witness for C2: a failing query-generation call at a concrete input. -/
theorem ask_question_catch_all_witness :
    ask_question demoStore failingOracle "q" =
      { answer := "Error: connection refused", status := 500 } :=
  ask_question_catch_all demoStore failingOracle "q" "connection refused"
    (Or.inl rfl)

/-- C6: when generation and execution succeed but the store returns an empty
result set, answer synthesis is still invoked on the empty payload and the
endpoint returns status 200 with the model-produced answer. -/
theorem ask_question_empty_results_ok (st : Store) (o : LlmOracle)
    (q cq ans : String)
    (h1 : generate_cypher_query o q = .ok cq)
    (h2 : run_cypher st (.generated cq) [] = .ok [])
    (h3 : get_answer_from_kg o [] q = .ok ans) :
    ask_question st o q = { answer := ans, status := 200 } := by
  simp [ask_question, h1, h2, h3]

/-- Witness for C6: a store whose generated query returns no rows. -/
theorem ask_question_empty_results_ok_witness :
    ask_question emptyResultStore demoOracle "any question" =
      { answer := "Silver catalyzes it.", status := 200 } :=
  ask_question_empty_results_ok emptyResultStore demoOracle
    "any question" "MATCH (n) RETURN n" "Silver catalyzes it." (by decide) rfl (by decide)

/-- C3: for every limit ≥ 0, the `/api/graph` response's node list is exactly
the set of distinct source/target values of the returned links, each once,
and at most `limit` links are returned. -/
theorem get_full_graph_nodes_exact (st : Store) (limit : Int) (p : Projection String)
    (hlim : 0 ≤ limit)
    (hp : get_full_graph st limit = .ok p) :
    (∀ name : String, NodeObj.mk name ∈ p.nodes ↔
        ∃ r ∈ p.links, r.source = name ∨ r.target = name) ∧
    p.nodes.Nodup ∧ (p.links.length : Int) ≤ limit := by
  have hrun : run_cypher st .fullGraph [("limit", ParamVal.int limit)]
      = .ok (st.edges.take limit.toNat) := by
    simp [run_cypher, findParam, not_lt.mpr hlim]
  rw [get_full_graph, hrun] at hp
  simp only [Except.map] at hp
  obtain rfl : buildProjection (st.edges.take limit.toNat) = p := by
    injection hp
  refine ⟨fun name => mem_nodes_buildProjection _ name,
    nodup_nodes_buildProjection _, ?_⟩
  have hlen : (st.edges.take limit.toNat).length ≤ limit.toNat := by
    simp [List.length_take]
  calc ((buildProjection (st.edges.take limit.toNat)).links.length : Int)
      = ((st.edges.take limit.toNat).length : Int) := rfl
    _ ≤ (limit.toNat : Int) := by exact_mod_cast hlen
    _ = limit := Int.toNat_of_nonneg hlim

/-- Witness for C3 at a one-edge store with limit 1. -/
theorem get_full_graph_nodes_exact_witness :
    (∀ name : String, NodeObj.mk name ∈ (buildProjection [demoRow]).nodes ↔
        ∃ r ∈ (buildProjection [demoRow]).links, r.source = name ∨ r.target = name) ∧
    (buildProjection [demoRow]).nodes.Nodup ∧
    ((buildProjection [demoRow]).links.length : Int) ≤ 1 :=
  get_full_graph_nodes_exact demoStore 1 (buildProjection [demoRow])
    (by decide) rfl

/-- C4: every link returned by `/api/search` for a non-empty `q` has `q` as a
case-insensitive substring of its source or target name, and at most 100
links are returned. -/
theorem search_links_match_keyword (st : Store) (s : String) (p : Projection String)
    (hne : s ≠ "")
    (hp : search_endpoint st (some s) = .ok 200 p) :
    (∀ r ∈ p.links, strContains (strToLower r.source) (strToLower s) = true ∨
        strContains (strToLower r.target) (strToLower s) = true) ∧
    p.links.length ≤ 100 := by
  simp only [search_endpoint] at hp
  by_cases hl : s.length < 1
  · rw [if_pos hl] at hp
    cases hp
  · rw [if_neg hl] at hp
    have hrun : run_cypher st .search [("q", ParamVal.str s)]
        = .ok ((st.edges.filter (matchesKeyword s)).take 100) := by
      simp [run_cypher, findParam]
    rw [hrun] at hp
    obtain rfl : buildProjection ((st.edges.filter (matchesKeyword s)).take 100) = p := by
      injection hp
    constructor
    · intro r hr
      have hr2 : r ∈ st.edges.filter (matchesKeyword s) := List.take_subset _ _ hr
      have hm := (List.mem_filter.mp hr2).2
      exact Bool.or_eq_true _ _ |>.mp (by simpa [matchesKeyword] using hm)
    · exact List.length_take_le 100 (st.edges.filter (matchesKeyword s))

/-- Witness for C4: searching the one-edge store for "ag". -/
theorem search_links_match_keyword_witness :
    (∀ r ∈ (buildProjection [demoRow]).links,
        strContains (strToLower r.source) (strToLower "ag") = true ∨
        strContains (strToLower r.target) (strToLower "ag") = true) ∧
    (buildProjection [demoRow]).links.length ≤ 100 :=
  search_links_match_keyword demoStore "ag" (buildProjection [demoRow])
    (by decide) (by decide)

/-- C5: a missing or empty `q` on `/api/search` is rejected by the HTTP-layer
validation with a 422 response, identically for every store (the store is
never consulted). -/
theorem search_rejects_missing_or_empty_q (st : Store) (q : Option String)
    (h : q = none ∨ q = some "") :
    search_endpoint st q = .unprocessable ∧
    (search_endpoint st q).status = 422 ∧
    ∀ st2 : Store, search_endpoint st2 q = search_endpoint st q := by
  rcases h with rfl | rfl
  · exact ⟨rfl, rfl, fun _ => rfl⟩
  · exact ⟨by simp [search_endpoint], by simp [search_endpoint, HttpResponse.status],
      fun st2 => by simp [search_endpoint]⟩

/-- Witness for C5 with the parameter absent. -/
theorem search_rejects_missing_or_empty_q_witness :
    search_endpoint demoStore none = .unprocessable ∧
    (search_endpoint demoStore none).status = 422 ∧
    ∀ st2 : Store, search_endpoint st2 none = search_endpoint demoStore none :=
  search_rejects_missing_or_empty_q demoStore none (Or.inl rfl)

/-- C7: the query-generation client returns the first choice's message
content with leading/trailing whitespace stripped and all triple-backtick
fence markers removed; content without backticks is left unchanged. -/
theorem generate_query_extract_and_clean (o : LlmOracle) (q : String)
    (r : ChatResponse) (c : Choice) (rest : List Choice)
    (hapi : o.genResp q = .ok r)
    (hch : r.choices = c :: rest) :
    generate_cypher_query o q = .ok (pyReplaceFences (pyStrip c.message.content)) ∧
    ∀ s : String, (∀ ch ∈ s.data, ch ≠ backquote) → pyReplaceFences s = s := by
  constructor
  · simp [generate_cypher_query, hapi, extractContent, hch]
  · intro s hs
    cases s with
    | mk l =>
      show String.mk (removeFencesAux l) = String.mk l
      rw [removeFencesAux_no_backquote l hs]

/-- Witness for C7: a fenced, whitespace-padded model reply is cleaned to the
bare query text. -/
theorem generate_query_extract_and_clean_witness :
    (generate_cypher_query fenceOracle "q" =
        .ok (pyReplaceFences (pyStrip fenceContent)) ∧
      ∀ s : String, (∀ ch ∈ s.data, ch ≠ backquote) → pyReplaceFences s = s) ∧
    pyReplaceFences (pyStrip fenceContent) = "MATCH (n) RETURN n" :=
  ⟨generate_query_extract_and_clean fenceOracle "q"
      { choices := [{ message := { role := "assistant", content := fenceContent } }] }
      { message := { role := "assistant", content := fenceContent } } [] rfl rfl,
    by decide⟩

/-- C8: the projection builder is a total pure function: for any value type
and any list of rows it returns `{nodes, links}`, with a duplicate-free node
list characterized by the rows' source/target values. -/
theorem buildProjection_total {α : Type} [DecidableEq α] (links : List (Row α)) :
    ∃ nodes : List (NodeObj α),
      buildProjection links = { nodes := nodes, links := links } ∧
      nodes.Nodup ∧
      ∀ a : α, NodeObj.mk a ∈ nodes ↔ ∃ r ∈ links, r.source = a ∨ r.target = a :=
  ⟨(nodeNames links).map NodeObj.mk, rfl, nodup_nodes_buildProjection links,
    fun a => mem_nodes_buildProjection links a⟩

/-- Witness for C8 at a concrete row list. -/
theorem buildProjection_total_witness :
    ∃ nodes : List (NodeObj String),
      buildProjection [demoRow] = { nodes := nodes, links := [demoRow] } ∧
      nodes.Nodup ∧
      ∀ a : String, NodeObj.mk a ∈ nodes ↔
        ∃ r ∈ [demoRow], r.source = a ∨ r.target = a :=
  buildProjection_total [demoRow]

/-- C9: both graph endpoints pass the executor's row list through as the
`links` field unmodified; only the node list is derived from it. -/
theorem links_passed_through_unmodified (st : Store) (limit : Int) (s : String)
    (rows rows2 : List (Row String)) (p p2 : Projection String)
    (h1 : run_cypher st .fullGraph [("limit", ParamVal.int limit)] = .ok rows)
    (h2 : get_full_graph st limit = .ok p)
    (h3 : run_cypher st .search [("q", ParamVal.str s)] = .ok rows2)
    (h4 : search_endpoint st (some s) = .ok 200 p2) :
    p.links = rows ∧ p2.links = rows2 := by
  constructor
  · rw [get_full_graph, h1] at h2
    simp only [Except.map] at h2
    obtain rfl : buildProjection rows = p := by injection h2
    rfl
  · simp only [search_endpoint] at h4
    by_cases hl : s.length < 1
    · rw [if_pos hl] at h4
      cases h4
    · rw [if_neg hl, h3] at h4
      obtain rfl : buildProjection rows2 = p2 := by
        injection h4
      rfl

/-- Witness for C9 on the one-edge store. -/
theorem links_passed_through_unmodified_witness :
    (buildProjection [demoRow]).links = [demoRow] ∧
    (buildProjection [demoRow]).links = [demoRow] :=
  links_passed_through_unmodified demoStore 1 "ag" [demoRow] [demoRow]
    (buildProjection [demoRow]) (buildProjection [demoRow])
    (by decide) (by decide) (by decide) (by decide)

/-- C10: `/api/graph` performs no range validation on `limit`: the value is
bound verbatim as `$limit`, any store error propagates uncaught, and a
negative limit surfaces the store's own error. -/
theorem graph_limit_unvalidated (st : Store) (limit : Int) :
    get_full_graph st limit =
      (run_cypher st .fullGraph [("limit", ParamVal.int limit)]).map buildProjection ∧
    (∀ e : String, run_cypher st .fullGraph [("limit", ParamVal.int limit)] = .error e →
      get_full_graph st limit = .error e) ∧
    (limit < 0 → get_full_graph st limit = .error negativeLimitError) := by
  refine ⟨rfl, ?_, ?_⟩
  · intro e he
    rw [get_full_graph, he]
    rfl
  · intro hneg
    rw [get_full_graph]
    have hrun : run_cypher st .fullGraph [("limit", ParamVal.int limit)]
        = .error negativeLimitError := by
      simp [run_cypher, findParam, hneg]
    rw [hrun]
    rfl

/-- Witness for C10: a negative limit surfaces the store error unchanged. -/
theorem graph_limit_unvalidated_witness :
    get_full_graph demoStore (-1) = .error negativeLimitError :=
  (graph_limit_unvalidated demoStore (-1)).2.2 (by decide)

end DPEO
